import Mathlib

/-!
Verification of the FAU201 device-controller layer (fau201device.cpp / .h).

The controller drives a CP2130 USB-to-SPI bridge.  We embed the controller
shallowly: each bridge primitive call becomes an `Event`, a device operation
returns the list of events it issues together with the updated error
accumulator `(errcnt, errstr)`.  Bridge calls may themselves touch the
accumulator; they are modelled as an arbitrary function `Event → ErrAcc →
ErrAcc` supplied as a parameter.  C `float` values are embedded as exact
rationals extended with a NaN point, with IEEE comparison semantics
(comparisons against NaN are false).
-/

/-- Error accumulator threaded by reference through every operation:
`cnt` is the C++ `int &errcnt`, `str` the `std::string &errstr`. -/
structure ErrAcc where
  cnt : Int
  str : String
deriving DecidableEq, Repr

/-- Chip-select pin mode of a CP2130 SPI channel.  `CSMODEPP` (push-pull) is
the value the controller uses; the bridge header (external) offers an
open-drain alternative, kept here so the choice is not vacuous. -/
inductive CSPinMode where
  | CSMODEOD
  | CSMODEPP
deriving DecidableEq, Repr

/-- SPI clock frequency selector.  `CFRQ750K` (750 kHz) is the value the
controller uses; one alternative from the bridge's range is kept. -/
inductive ClockFreq where
  | CFRQ750K
  | CFRQOTHER
deriving DecidableEq, Repr

/-- SPI clock polarity. -/
inductive ClockPol where
  | CPOL0
  | CPOL1
deriving DecidableEq, Repr

/-- SPI clock phase. -/
inductive ClockPha where
  | CPHA0
  | CPHA1
deriving DecidableEq, Repr

/-- CP2130 SPI mode bundle (`CP2130::SPIMode`): chip-select mode, clock
frequency, polarity, phase. -/
structure SPIMode where
  csmode : CSPinMode
  cfrq : ClockFreq
  cpol : ClockPol
  cpha : ClockPha
deriving DecidableEq, Repr

/-- One observable action of the controller: a call into the CP2130 bridge,
or the blocking microsecond sleep.  SPI payload bytes are naturals < 256;
endpoint addresses are naturals. -/
inductive Event where
  | configureSPIMode (channel : Nat) (mode : SPIMode)
  | disableSPIDelays (channel : Nat)
  | selectCS (channel : Nat)
  | disableCS (channel : Nat)
  | spiWrite (data : List Nat) (endpoint : Nat)
  | usleep (us : Nat)
  | getUSBConfigCall
deriving DecidableEq, Repr

/-- A bridge behaviour: the effect each delegated call has on the error
accumulator.  The real CP2130 class only ever appends to the accumulator;
claims that need that discipline take it as a hypothesis. -/
def Bridge : Type := Event → ErrAcc → ErrAcc

/-- Address of the endpoint assuming the OUT direction (`EPOUT` in the
source). -/
def EPOUT : Nat := 0x01

/-- Embedding of a C `float` argument: an exact rational, or NaN.  (Other
non-finite values are not needed by the claims.) -/
inductive FloatVal where
  | nan
  | val (q : ℚ)
deriving DecidableEq

/-- IEEE `<` on embedded floats: any comparison involving NaN is false. -/
def fLt : FloatVal → FloatVal → Bool
  | .val a, .val b => decide (a < b)
  | _, _ => false

/-- IEEE `>` on embedded floats: any comparison involving NaN is false. -/
def fGt : FloatVal → FloatVal → Bool
  | .val a, .val b => decide (a > b)
  | _, _ => false

/-- Minimum voltage (`FAU201Device::VOLTAGE_MIN = 0`). -/
def VOLTAGE_MIN : ℚ := 0

/-- Maximum voltage (`FAU201Device::VOLTAGE_MAX = 4.095`). -/
def VOLTAGE_MAX : ℚ := 4095 / 1000

/-- The cast `static_cast<uint16_t>(voltage * 1000 + 0.5)` from
`setVoltage`.  For the reachable range [0, 4.095] the float-to-integer
truncation equals the floor of `q * 1000 + 1/2`.  On NaN the C++ value is
unspecified; the model picks 0 (claims about the NaN path do not depend on
this choice). -/
def voltageCodeOf : FloatVal → Nat
  | .nan => 0
  | .val q => (⌊q * 1000 + 1 / 2⌋).toNat

/-- `FAU201Device::setVoltage(float voltage, int &errcnt, std::string
&errstr)`: validate the range, else select CS 0, write the 3-byte DAC
update command, sleep 100 us, deselect CS 0.  Returns the event trace and
the final accumulator. -/
def setVoltage (bridge : Bridge) (voltage : FloatVal) (acc : ErrAcc) :
    List Event × ErrAcc :=
  if fLt voltage (.val VOLTAGE_MIN) || fGt voltage (.val VOLTAGE_MAX) then
    ([], { cnt := acc.cnt + 1,
           str := acc.str ++ "In setVoltage(): Voltage must be between 0 and 4.095.\n" })
  else
    let a1 := bridge (.selectCS 0) acc
    let voltageCode := voltageCodeOf voltage
    let set : List Nat :=
      [0x30, (voltageCode >>> 4) % 256, (voltageCode <<< 4) % 256]
    let a2 := bridge (.spiWrite set EPOUT) a1
    let a3 := bridge (.disableCS 0) a2
    ([.selectCS 0, .spiWrite set EPOUT, .usleep 100, .disableCS 0], a3)

/-- The fixed SPI mode bundle built inside `FAU201Device::setup`. -/
def setupMode : SPIMode :=
  { csmode := .CSMODEPP, cfrq := .CFRQ750K, cpol := .CPOL0, cpha := .CPHA0 }

/-- `FAU201Device::setup(int &errcnt, std::string &errstr)`: configure the
SPI mode on channel 0, disable SPI delays, select CS 0, write the DAC
configuration command, sleep 100 us, deselect CS 0.  No step is guarded:
the C++ has no early exit, so the trace is unconditional and every bridge
call receives the accumulator left by the previous one. -/
def setup (bridge : Bridge) (acc : ErrAcc) : List Event × ErrAcc :=
  let a1 := bridge (.configureSPIMode 0 setupMode) acc
  let a2 := bridge (.disableSPIDelays 0) a1
  let a3 := bridge (.selectCS 0) a2
  let config : List Nat := [0x70, 0x00, 0x00]
  let a4 := bridge (.spiWrite config EPOUT) a3
  let a5 := bridge (.disableCS 0) a4
  ([.configureSPIMode 0 setupMode, .disableSPIDelays 0, .selectCS 0,
    .spiWrite config EPOUT, .usleep 100, .disableCS 0], a5)

/-- `FAU201Device::getUSBConfig`: pure delegation to the bridge. -/
def getUSBConfig (bridge : Bridge) (acc : ErrAcc) : List Event × ErrAcc :=
  ([.getUSBConfigCall], bridge .getUSBConfigCall acc)

/-- Major/minor release fields of `CP2130::USBConfig` (uint8 fields). -/
structure USBConfig where
  majrel : Nat
  minrel : Nat
deriving DecidableEq, Repr

/-- `FAU201Device::hardwareRevision(const CP2130::USBConfig &config)`:
start from the empty string, append the letter `majrel + 'A' - 2` when
`majrel > 1 && majrel <= 27`, then append the decimal form of `minrel`
when `majrel == 1 || minrel != 0`. -/
def hardwareRevision (config : USBConfig) : String :=
  let revision : String := ""
  let revision :=
    if 1 < config.majrel ∧ config.majrel ≤ 27 then
      revision.push (Char.ofNat (config.majrel + 'A'.toNat - 2))
    else revision
  let revision :=
    if config.majrel = 1 ∨ config.minrel ≠ 0 then
      revision ++ toString config.minrel
    else revision
  revision

/-- The packing of the 12-bit voltage code into the two SPI data bytes, as
written in `setVoltage` (`static_cast<uint8_t>(voltageCode >> 4)` and
`static_cast<uint8_t>(voltageCode << 4)`). -/
def packDacWord (code : Nat) : Nat × Nat :=
  ((code >>> 4) % 256, (code <<< 4) % 256)

/-- The re-assembly `(byte0 << 4) | (byte1 >> 4)` named by the spec's
round-trip property. -/
def unpackDacWord (byte0 byte1 : Nat) : Nat :=
  (byte0 <<< 4) ||| (byte1 >>> 4)

/-- Recognizer for SPI-write events, used to count writes in a trace. -/
def Event.isSpi : Event → Bool
  | .spiWrite _ _ => true
  | _ => false

/-- The spec's characterization of the hardware-revision string: a letter
part (the single character `'A' + (majrel - 2)` exactly when
`1 < majrel ≤ 27`) followed by a digit part (the decimal form of `minrel`
exactly when `majrel = 1` or `minrel ≠ 0`).  Stated separately from
`hardwareRevision`, which is the source translation, so the two can be
compared. -/
def hardwareRevisionSpec (config : USBConfig) : String :=
  (if 1 < config.majrel ∧ config.majrel ≤ 27 then
      String.singleton (Char.ofNat ('A'.toNat + (config.majrel - 2)))
   else "") ++
  (if config.majrel = 1 ∨ config.minrel ≠ 0 then toString config.minrel
   else "")

/-- Status codes returned by `open` (`FAU201Device::SUCCESS`, `ERROR_INIT`,
`ERROR_NOT_FOUND`, `ERROR_BUSY`; numeric values live in the external
CP2130 header).  Modelled from the spec: the closed status set of the
bridge's open-by-identity call. -/
inductive OpenStatus where
  | success
  | errorInit
  | errorNotFound
  | errorBusy
deriving DecidableEq, Repr

/-- Observable handle state of the owned CP2130 instance. -/
structure CP2130State where
  handleOpen : Bool
deriving DecidableEq, Repr

/-- Modelled from the spec: `CP2130::open(vid, pid, serial)` (code external
to this repository).  The environment decides the outcome for a given
identity and serial (`outcome`); open returns that status, acquires the
handle on success, and on any failure leaves the handle exactly as it was
(unusable if it was not open). -/
def cp2130Open (outcome : Nat → Nat → Option String → OpenStatus)
    (vid pid : Nat) (serial : Option String) (st : CP2130State) :
    OpenStatus × CP2130State :=
  let s := outcome vid pid serial
  (s, if s = .success then { handleOpen := true } else st)

/-- Modelled from the spec: `CP2130::close()` (code external to this
repository) releases the handle if held and is a silent no-op otherwise;
it reports no error either way, so its whole observable effect is the
resulting handle state. -/
def cp2130Close (_st : CP2130State) : CP2130State :=
  { handleOpen := false }

/-- USB vendor ID (`FAU201Device::VID = 0x10C4`). -/
def VID : Nat := 0x10C4

/-- USB product ID (`FAU201Device::PID = 0x8C46`). -/
def PID : Nat := 0x8C46

/-- `FAU201Device::open(const std::string &serial)`: pure delegation of
discovery and acquisition to `cp2130_.open(VID, PID, serial)`. -/
def openDevice (outcome : Nat → Nat → Option String → OpenStatus)
    (serial : Option String) (st : CP2130State) : OpenStatus × CP2130State :=
  cp2130Open outcome VID PID serial st

/-- `FAU201Device::close()`: pure delegation to `cp2130_.close()`. -/
def closeDevice (st : CP2130State) : CP2130State :=
  cp2130Close st

/-- `CP2130State` of a handle that was never opened (the constructed
device before any successful `open`). -/
def initialState : CP2130State :=
  { handleOpen := false }

/-- Accumulator extension: the count never decreases and the old message
log is a prefix of the new one (nothing is removed or overwritten). -/
def ErrExtends (a b : ErrAcc) : Prop :=
  a.cnt ≤ b.cnt ∧ ∃ s, b.str = a.str ++ s

theorem errExtends_refl (a : ErrAcc) : ErrExtends a a :=
  ⟨le_refl _, "", (String.append_empty a.str).symm⟩

theorem errExtends_trans {a b c : ErrAcc} (h1 : ErrExtends a b)
    (h2 : ErrExtends b c) : ErrExtends a c := by
  obtain ⟨hc1, s1, hs1⟩ := h1
  obtain ⟨hc2, s2, hs2⟩ := h2
  exact ⟨le_trans hc1 hc2, s1 ++ s2, by rw [hs2, hs1, String.append_assoc]⟩

/-- Claim C1: for every voltage value v in [0, 4.095], setVoltage issues
exactly one 3-byte SPI write to the OUT endpoint whose bytes are the
opcode 0x30 followed by (code >> 4) and (code << 4) truncated to 8 bits,
where code = round(v * 1000), framed by select CS 0, write, the fixed
100 us settle delay, and deselect CS 0. -/
theorem setVoltage_inRange (bridge : Bridge) (q : ℚ) (acc : ErrAcc)
    (h0 : 0 ≤ q) (h1 : q ≤ 4095 / 1000) :
    (setVoltage bridge (.val q) acc).1 =
      [.selectCS 0,
       .spiWrite [0x30, ((round (q * 1000)).toNat >>> 4) % 256,
                        ((round (q * 1000)).toNat <<< 4) % 256] EPOUT,
       .usleep 100, .disableCS 0] ∧
    ((setVoltage bridge (.val q) acc).1.countP Event.isSpi) = 1 := by
  have hcond : (fLt (.val q) (.val VOLTAGE_MIN) ||
      fGt (.val q) (.val VOLTAGE_MAX)) = false := by
    simp only [fLt, fGt, VOLTAGE_MIN, VOLTAGE_MAX, Bool.or_eq_false_iff,
      decide_eq_false_iff_not, not_lt, gt_iff_lt]
    exact ⟨h0, h1⟩
  have hcode : voltageCodeOf (.val q) = (round (q * 1000)).toNat := by
    simp [voltageCodeOf, round_eq]
  constructor
  · simp only [setVoltage, hcond, Bool.false_eq_true, if_false, hcode]
  · simp only [setVoltage, hcond, Bool.false_eq_true, if_false]
    simp [List.countP, List.countP.go, Event.isSpi]

theorem setVoltage_inRange_witness :
    (0 : ℚ) ≤ 5 / 2 ∧ (5 / 2 : ℚ) ≤ 4095 / 1000 ∧
    (setVoltage (fun _ a => a) (.val (5 / 2)) ⟨0, ""⟩).1 =
      [.selectCS 0, .spiWrite [0x30, 156, 64] EPOUT,
       .usleep 100, .disableCS 0] := by
  have h0 : (0 : ℚ) ≤ 5 / 2 := by norm_num
  have h1 : (5 / 2 : ℚ) ≤ 4095 / 1000 := by norm_num
  refine ⟨h0, h1, ?_⟩
  have h := (setVoltage_inRange (fun _ a => a) (5 / 2) ⟨0, ""⟩ h0 h1).1
  rw [h]
  have hr : round ((5 / 2 : ℚ) * 1000) = 2500 := by norm_num [round_eq]
  rw [hr]
  rfl

/-- Claim C2: for every rational voltage outside [0, 4.095], setVoltage
performs no hardware access (empty trace), increments errcnt by exactly 1
and appends exactly the one message to errstr. -/
theorem setVoltage_outOfRange (bridge : Bridge) (q : ℚ) (acc : ErrAcc)
    (h : q < 0 ∨ 4095 / 1000 < q) :
    setVoltage bridge (.val q) acc =
      ([], { cnt := acc.cnt + 1,
             str := acc.str ++ "In setVoltage(): Voltage must be between 0 and 4.095.\n" }) := by
  have hcond : (fLt (.val q) (.val VOLTAGE_MIN) ||
      fGt (.val q) (.val VOLTAGE_MAX)) = true := by
    simp only [fLt, fGt, VOLTAGE_MIN, VOLTAGE_MAX, Bool.or_eq_true,
      decide_eq_true_eq, gt_iff_lt]
    exact h
  simp only [setVoltage, hcond, if_true]

theorem setVoltage_outOfRange_witness :
    ((-1 : ℚ) / 10 < 0 ∨ (4095 : ℚ) / 1000 < -1 / 10) ∧
    setVoltage (fun _ a => a) (.val (-1 / 10)) ⟨0, ""⟩ =
      ([], { cnt := 1,
             str := "In setVoltage(): Voltage must be between 0 and 4.095.\n" }) := by
  have h : (-1 : ℚ) / 10 < 0 ∨ (4095 : ℚ) / 1000 < -1 / 10 := by norm_num
  refine ⟨h, ?_⟩
  rw [setVoltage_outOfRange (fun _ a => a) (-1 / 10) ⟨0, ""⟩ h]
  rfl

/-- Claim C5: setup always performs its six steps in the fixed order with
the fixed constants (push-pull CS, 750 kHz, CPOL0, CPHA0, command bytes
0x70 0x00 0x00 on endpoint 0x01, 100 us delay), never short-circuiting:
the trace is the same for every bridge behaviour and every starting
accumulator, and each bridge step receives the accumulator produced by
the step before it. -/
theorem setup_choreography (bridge : Bridge) (acc : ErrAcc) :
    (setup bridge acc).1 =
      [.configureSPIMode 0 ⟨.CSMODEPP, .CFRQ750K, .CPOL0, .CPHA0⟩,
       .disableSPIDelays 0, .selectCS 0,
       .spiWrite [0x70, 0x00, 0x00] 0x01, .usleep 100, .disableCS 0] ∧
    (setup bridge acc).2 =
      bridge (.disableCS 0)
        (bridge (.spiWrite [0x70, 0x00, 0x00] EPOUT)
          (bridge (.selectCS 0)
            (bridge (.disableSPIDelays 0)
              (bridge (.configureSPIMode 0 setupMode) acc)))) :=
  ⟨rfl, rfl⟩

/-- Claim C9: for a NaN voltage both range comparisons are false, so
setVoltage does not take the error branch: the accumulator receives no
error from the driver itself, and the trace is the full hardware
choreography with some (unspecified) data bytes. -/
theorem setVoltage_nan (bridge : Bridge) (acc : ErrAcc) :
    fLt .nan (.val VOLTAGE_MIN) = false ∧
    fGt .nan (.val VOLTAGE_MAX) = false ∧
    (setVoltage (fun _ a => a) .nan acc).2 = acc ∧
    ∃ b1 b2, (setVoltage bridge .nan acc).1 =
      [.selectCS 0, .spiWrite [0x30, b1, b2] EPOUT,
       .usleep 100, .disableCS 0] :=
  ⟨rfl, rfl, rfl, 0, 0, rfl⟩

/-- Claim C3 counterexample: the code yields "0" for majrel=1,minrel=0 and
"3" for majrel=1,minrel=3, not "1" and "13". -/
theorem hardwareRevision_claim_cex :
    hardwareRevision ⟨1, 0⟩ ≠ "1" ∧ hardwareRevision ⟨1, 3⟩ ≠ "13" := by
  decide

/-- Claim C3 (amended): hardwareRevision is pure and total, and on the
boundary cases returns majrel=1,minrel=0 → "0"; 2,0 → "A"; 2,5 → "A5";
1,3 → "3"; 28,0 → "". -/
theorem hardwareRevision_boundary :
    hardwareRevision ⟨1, 0⟩ = "0" ∧ hardwareRevision ⟨2, 0⟩ = "A" ∧
    hardwareRevision ⟨2, 5⟩ = "A5" ∧ hardwareRevision ⟨1, 3⟩ = "3" ∧
    hardwareRevision ⟨28, 0⟩ = "" := by
  decide

/-- Claim C4: hardwareRevision equals the spec characterization: letter
part (single char for 1 < majrel ≤ 27) followed by digit part (decimal
minrel when majrel = 1 or minrel ≠ 0). -/
theorem hardwareRevision_eq_spec (config : USBConfig) :
    hardwareRevision config = hardwareRevisionSpec config := by
  have hA : 'A'.toNat = 65 := rfl
  by_cases hL : 1 < config.majrel ∧ config.majrel ≤ 27 <;>
    by_cases hD : config.majrel = 1 ∨ config.minrel ≠ 0 <;>
    simp only [hardwareRevision, hardwareRevisionSpec, hL, hD, if_true,
      if_false, String.append_empty]
  · have harg : config.majrel + 'A'.toNat - 2 = 'A'.toNat + (config.majrel - 2) := by
      rw [hA]; omega
    rw [harg]
    simp only [and_self, if_true]
    rfl
  · have harg : config.majrel + 'A'.toNat - 2 = 'A'.toNat + (config.majrel - 2) := by
      rw [hA]; omega
    rw [harg]
    simp only [and_self, if_true]
    rfl

set_option maxRecDepth 2048 in
/-- Claim C6: packing a 12-bit code into the two data bytes and
re-assembling as (byte0 << 4) | (byte1 >> 4) restores the code, and the
low byte agrees with the spec's (code << 4) & 0xF0 form. -/
theorem packDacWord_roundtrip (code : Nat) (h : code ≤ 4095) :
    unpackDacWord (packDacWord code).1 (packDacWord code).2 = code ∧
    (packDacWord code).2 = (code <<< 4) &&& 0xF0 := by
  have hball : ∀ hi, hi < 256 → ∀ lo, lo < 16 →
      unpackDacWord (packDacWord (16 * hi + lo)).1
        (packDacWord (16 * hi + lo)).2 = 16 * hi + lo ∧
      (packDacWord (16 * hi + lo)).2 = ((16 * hi + lo) <<< 4) &&& 0xF0 := by
    decide
  have h1 : code / 16 < 256 := by omega
  have h2 : code % 16 < 16 := by omega
  have e : 16 * (code / 16) + code % 16 = code := by omega
  have hc := hball (code / 16) h1 (code % 16) h2
  rwa [e] at hc

theorem packDacWord_roundtrip_witness :
    (2500 : Nat) ≤ 4095 ∧
    unpackDacWord (packDacWord 2500).1 (packDacWord 2500).2 = 2500 :=
  ⟨by decide, (packDacWord_roundtrip 2500 (by decide)).1⟩

theorem openStatus_cases (s : OpenStatus) :
    s = .success ∨ s = .errorInit ∨ s = .errorNotFound ∨ s = .errorBusy := by
  cases s <;> simp

/-- Claim C7: open delegates to the bridge with the fixed identity
0x10C4/0x8C46, returns a status from the closed four-element set, and on
any non-success outcome a previously unopened handle stays unusable. -/
theorem openDevice_contract (outcome : Nat → Nat → Option String → OpenStatus)
    (serial : Option String) (st : CP2130State) :
    (openDevice outcome serial st).1 = outcome 0x10C4 0x8C46 serial ∧
    ((openDevice outcome serial st).1 = .success ∨
     (openDevice outcome serial st).1 = .errorInit ∨
     (openDevice outcome serial st).1 = .errorNotFound ∨
     (openDevice outcome serial st).1 = .errorBusy) ∧
    ((openDevice outcome serial st).1 ≠ .success → st.handleOpen = false →
      (openDevice outcome serial st).2.handleOpen = false) := by
  refine ⟨rfl, openStatus_cases _, ?_⟩
  intro hne hst
  have hs : outcome VID PID serial ≠ .success := hne
  simp [openDevice, cp2130Open, hs, hst]

theorem openDevice_contract_witness :
    (openDevice (fun _ _ _ => .errorNotFound) none initialState).1 ≠
      OpenStatus.success ∧
    initialState.handleOpen = false ∧
    (openDevice (fun _ _ _ => .errorNotFound) none initialState).2.handleOpen
      = false := by
  have h := openDevice_contract (fun _ _ _ => .errorNotFound) none initialState
  exact ⟨by decide, rfl, h.2.2 (by decide) rfl⟩

/-- Claim C8: close is idempotent and total on every handle state: closing
twice equals closing once, closing a never-opened handle is a no-op, and
afterwards the handle is not held.  The close path has no error channel at
all. -/
theorem closeDevice_idempotent (st : CP2130State) :
    closeDevice (closeDevice st) = closeDevice st ∧
    closeDevice initialState = initialState ∧
    (closeDevice st).handleOpen = false :=
  ⟨rfl, rfl, rfl⟩

/-- Claim C10: if every delegated bridge call only extends the error
accumulator, then setVoltage, setup and getUSBConfig only extend it too:
errcnt never decreases and the previous errstr stays a prefix. -/
theorem errAcc_monotone (bridge : Bridge)
    (hB : ∀ e a, ErrExtends a (bridge e a)) :
    (∀ v acc, ErrExtends acc (setVoltage bridge v acc).2) ∧
    (∀ acc, ErrExtends acc (setup bridge acc).2) ∧
    (∀ acc, ErrExtends acc (getUSBConfig bridge acc).2) := by
  refine ⟨?_, ?_, ?_⟩
  · intro v acc
    rw [setVoltage]
    split
    · exact ⟨by simp, "In setVoltage(): Voltage must be between 0 and 4.095.\n", rfl⟩
    · exact errExtends_trans (hB _ _) (errExtends_trans (hB _ _) (hB _ _))
  · intro acc
    exact errExtends_trans (hB _ _) (errExtends_trans (hB _ _)
      (errExtends_trans (hB _ _) (errExtends_trans (hB _ _) (hB _ _))))
  · intro acc
    exact hB _ _

theorem errAcc_monotone_witness :
    ErrExtends ⟨0, ""⟩ (setup (fun _ a => a) ⟨0, ""⟩).2 :=
  (errAcc_monotone (fun _ a => a) (fun _ a => errExtends_refl a)).2.1 ⟨0, ""⟩
